import Mathlib

/-
Verification of the numeric utility script in src/src/test-pylint.py.

The script defines four functions:
  calculate_average(numbers)      -- mean with an explicit empty-input case
  generate_random_list(length, min_value=1, max_value=100)
  print_results(numbers, average) -- two-line console report
  complex_function(a, b, c, d, e, f)
and a main block that wires the first three together and discards a call
to complex_function.

Embedding choices:
  - Python numbers are modelled by PyNum, a tagged sum of arbitrary-precision
    integers (Int) and floats.  Floats are modelled by exact rationals, so
    float arithmetic is exact here; every float value arising in this program
    has a short finite decimal expansion, where the exact model and IEEE-754
    printing agree.
  - Python expressions that can raise are modelled in Except String.
  - The process-wide random source is modelled by an explicit stream of
    natural-number draws ds : Nat -> Nat; random.randint(a, b) maps draw d
    to a + (d mod (b - a + 1)) when a <= b and raises ValueError otherwise,
    matching the library contract (a uniform stream induces a uniform value
    in [a, b]; the claims checked here concern length, range and errors,
    not distribution).
  - Printing is modelled by the list of lines written to standard output.
-/

/-- Model of a Python number: either an int or a float (floats taken exact,
as rationals). -/
inductive PyNum where
  | int (n : Int)
  | float (x : Rat)
deriving DecidableEq, Repr

/-- Numeric value of a PyNum, as a rational. -/
def PyNum.toRat : PyNum → Rat
  | PyNum.int n => (n : Rat)
  | PyNum.float x => x

/-- Python addition on numbers: int + int is an int, any operand being a
float makes the result a float. -/
def pyAdd : PyNum → PyNum → PyNum
  | PyNum.int m, PyNum.int n => PyNum.int (m + n)
  | a, b => PyNum.float (a.toRat + b.toRat)

/-- Python true division on numbers: always produces a float, and raises
ZeroDivisionError when the denominator is zero. -/
def pyDiv (a b : PyNum) : Except String PyNum :=
  if b.toRat = 0 then Except.error "ZeroDivisionError: division by zero"
  else Except.ok (PyNum.float (a.toRat / b.toRat))

/-- Embedding of calculate_average from src/src/test-pylint.py:
total = sum(numbers); count = len(numbers); if count == 0: return 0;
return total / count.  Python sum folds from the int 0 on the left. -/
def calculate_average (numbers : List PyNum) : Except String PyNum :=
  let total := numbers.foldl pyAdd (PyNum.int 0)
  let count := numbers.length
  if count = 0 then Except.ok (PyNum.int 0)
  else pyDiv total (PyNum.int count)

/-- Model of random.randint(a, b) applied to one draw d from the stream:
an integer uniformly in [a, b] when a <= b, ValueError otherwise. -/
def randint (a b : Int) (d : Nat) : Except String Int :=
  if a ≤ b then Except.ok (a + ((d % (b - a + 1).toNat : Nat) : Int))
  else Except.error "ValueError: empty range for randrange"

/-- One draw of random.randint per index of the iteration, left to right,
stopping at the first error, as the list comprehension does. -/
def genAux (a b : Int) (ds : Nat → Nat) : List Nat → Except String (List Int)
  | [] => Except.ok []
  | i :: is =>
    match randint a b (ds i) with
    | Except.error e => Except.error e
    | Except.ok v =>
      match genAux a b ds is with
      | Except.error e => Except.error e
      | Except.ok rest => Except.ok (v :: rest)

/-- Embedding of generate_random_list from src/src/test-pylint.py:
[random.randint(min_value, max_value) for _ in range(length)], the random
source being the explicit draw stream ds. -/
def generate_random_list (length : Nat) (min_value max_value : Int)
    (ds : Nat → Nat) : Except String (List Int) :=
  genAux min_value max_value ds (List.range length)

/-- Embedding of complex_function from src/src/test-pylint.py:
x = a + b; y = c - d; z = e * f; result = x + y + z; return result. -/
def complex_function (a b c d e f : Rat) : Rat :=
  let x := a + b
  let y := c - d
  let z := e * f
  let result := x + y + z
  result

/-- Rendering of the fractional digits of a nonnegative rational rem / d,
most significant first, stopping when the remainder is exhausted; fuel
bounds the number of digits produced. -/
def fracDigits : Nat → Nat → Nat → String
  | 0, _, _ => ""
  | Nat.succ fuel, rem, d =>
    if rem = 0 then ""
    else
      let rem10 := rem * 10
      toString (rem10 / d) ++ fracDigits fuel (rem10 % d) d

/-- Model of how Python str renders a float: for values with a short finite
decimal expansion (the only floats this program produces), the integer part,
a dot, and the fractional digits, ".0" when the value is integral -- so
371/10 renders as "37.1". -/
def pyFloatStr (q : Rat) : String :=
  let sign := if q < 0 then "-" else ""
  let n := q.num.natAbs
  let d := q.den
  let ip := n / d
  let frac := fracDigits 40 (n % d) d
  sign ++ toString ip ++ "." ++ (if frac = "" then "0" else frac)

/-- Model of how Python str renders a PyNum. -/
def pyNumStr : PyNum → String
  | PyNum.int n => toString n
  | PyNum.float q => pyFloatStr q

/-- Model of how Python str renders a list of ints: bracketed,
comma-space separated. -/
def pyIntListStr (l : List Int) : String :=
  "[" ++ String.intercalate ", " (l.map toString) ++ "]"

/-- One print statement: appends a line to the output channel. -/
def printLine (s : String) (out : List String) : List String :=
  out ++ [s]

/-- Embedding of print_results from src/src/test-pylint.py: prints the
Numbers line then the Average line on the output channel. -/
def print_results (numbers : List Int) (average : PyNum)
    (out : List String) : List String :=
  printLine ("Average: " ++ pyNumStr average)
    (printLine ("Numbers: " ++ pyIntListStr numbers) out)

/-- Embedding of the main block of src/src/test-pylint.py: generates 10
random integers with the default bounds 1 and 100, averages them, prints the
report starting from an empty output channel, calls complex_function with
the literal arguments and discards the result; the value of the run is the
list of lines written. -/
def main_program (ds : Nat → Nat) : Except String (List String) :=
  match generate_random_list 10 1 100 ds with
  | Except.error e => Except.error e
  | Except.ok random_numbers =>
    match calculate_average (random_numbers.map PyNum.int) with
    | Except.error e => Except.error e
    | Except.ok avg =>
      let out := print_results random_numbers avg []
      let _ := complex_function 1 2 3 4 5 6
      Except.ok out

/-- World threaded through an effectful call: the remaining random draw
stream and the lines written so far. -/
structure World where
  draws : Nat → Nat
  out : List String

/-- Statement-by-statement state-passing embedding of calculate_average:
none of its statements reads or writes the world (no print, no random
draw), so the world passes through each line untouched. -/
def calculate_averageW (numbers : List PyNum) (w : World) :
    Except String PyNum × World :=
  let total := numbers.foldl pyAdd (PyNum.int 0)
  let count := numbers.length
  if count = 0 then (Except.ok (PyNum.int 0), w)
  else (pyDiv total (PyNum.int count), w)

-- Helper lemmas

lemma pyAdd_toRat (a b : PyNum) : (pyAdd a b).toRat = a.toRat + b.toRat := by
  cases a <;> cases b <;> simp [pyAdd, PyNum.toRat, Int.cast_add]

lemma foldl_pyAdd_toRat (S : List PyNum) (a : PyNum) :
    (S.foldl pyAdd a).toRat = a.toRat + (S.map PyNum.toRat).sum := by
  induction S generalizing a with
  | nil => simp
  | cons x xs ih =>
    simp only [List.foldl_cons, List.map_cons, List.sum_cons, ih, pyAdd_toRat]
    ring

lemma toRat_int (n : Int) : (PyNum.int n).toRat = (n : Rat) := rfl

lemma calculate_average_ok (S : List PyNum) (h : S ≠ []) :
    calculate_average S =
      Except.ok (PyNum.float ((S.map PyNum.toRat).sum / (S.length : Rat))) := by
  have hlen : S.length ≠ 0 := by
    simpa [List.length_eq_zero] using h
  have hlenQ : ((S.length : Int) : Rat) ≠ 0 := by
    exact_mod_cast hlen
  have htot : (List.foldl pyAdd (PyNum.int 0) S).toRat = (S.map PyNum.toRat).sum := by
    simpa [toRat_int] using foldl_pyAdd_toRat S (PyNum.int 0)
  simp only [calculate_average, if_neg hlen, pyDiv, toRat_int, if_neg hlenQ, htot]
  norm_num

lemma genAux_ok_of_le (a b : Int) (ds : Nat → Nat) (h : a ≤ b) (is : List Nat) :
    genAux a b ds is =
      Except.ok (is.map fun i => a + ((ds i % (b - a + 1).toNat : Nat) : Int)) := by
  induction is with
  | nil => rfl
  | cons i is ih => simp [genAux, randint, h, ih]

lemma randint_bounds (a b : Int) (h : a ≤ b) (d : Nat) :
    a ≤ a + ((d % (b - a + 1).toNat : Nat) : Int) ∧
      a + ((d % (b - a + 1).toNat : Nat) : Int) ≤ b := by
  have hpos : 0 < (b - a + 1).toNat := by omega
  have hlt : d % (b - a + 1).toNat < (b - a + 1).toNat := Nat.mod_lt _ hpos
  omega

-- Claim theorems

/-- C1: for every non-empty sequence of numeric values S, calculate_average S
returns the arithmetic mean sum S / len S, as a float (real number). -/
theorem calculate_average_mean (S : List PyNum) (h : S ≠ []) :
    calculate_average S =
      Except.ok (PyNum.float ((S.map PyNum.toRat).sum / (S.length : Rat))) :=
  calculate_average_ok S h

/-- Witness for C1 at the concrete input [1, 2]: the mean is 3/2. -/
theorem calculate_average_mean_witness :
    ([PyNum.int 1, PyNum.int 2] ≠ ([] : List PyNum)) ∧
    calculate_average [PyNum.int 1, PyNum.int 2] =
      Except.ok (PyNum.float
        ((([PyNum.int 1, PyNum.int 2].map PyNum.toRat).sum) /
          (([PyNum.int 1, PyNum.int 2].length : Nat) : Rat))) :=
  ⟨by decide, calculate_average_mean [PyNum.int 1, PyNum.int 2] (by decide)⟩

/-- C2: calculate_average on the empty sequence returns exactly the integer
value 0, not the float 0.0 and not an error. -/
theorem calculate_average_empty :
    calculate_average [] = Except.ok (PyNum.int 0) ∧
    calculate_average [] ≠ Except.ok (PyNum.float 0) := by
  refine ⟨rfl, ?_⟩
  intro h
  simp [calculate_average] at h

/-- C3: for every length and every bounds pair with min_value <= max_value,
generate_random_list returns a sequence of exactly that length whose
elements all lie in [min_value, max_value]. -/
theorem generate_random_list_spec (length : Nat) (min_value max_value : Int)
    (ds : Nat → Nat) (h : min_value ≤ max_value) :
    ∃ l, generate_random_list length min_value max_value ds = Except.ok l ∧
      l.length = length ∧ ∀ v ∈ l, min_value ≤ v ∧ v ≤ max_value := by
  refine ⟨(List.range length).map fun i =>
      min_value + ((ds i % (max_value - min_value + 1).toNat : Nat) : Int),
    genAux_ok_of_le _ _ _ h _, by simp, ?_⟩
  intro v hv
  rcases List.mem_map.mp hv with ⟨i, _, rfl⟩
  exact randint_bounds _ _ h (ds i)

/-- Witness for C3 at length 3, bounds 1 and 5, draw stream i. -/
theorem generate_random_list_spec_witness :
    (1 : Int) ≤ 5 ∧
    (∃ l, generate_random_list 3 1 5 (fun i => i) = Except.ok l ∧
      l.length = 3 ∧ ∀ v ∈ l, (1 : Int) ≤ v ∧ v ≤ 5) :=
  ⟨by decide, generate_random_list_spec 3 1 5 (fun i => i) (by decide)⟩

/-- C6: for length at least 1 and min_value > max_value, generate_random_list
fails with an invalid-range error rather than returning a sequence. -/
theorem generate_random_list_invalid_range (length : Nat)
    (min_value max_value : Int) (ds : Nat → Nat)
    (hl : 1 ≤ length) (h : max_value < min_value) :
    ∃ e, generate_random_list length min_value max_value ds = Except.error e := by
  obtain ⟨n, rfl⟩ : ∃ n, length = n + 1 := ⟨length - 1, by omega⟩
  refine ⟨"ValueError: empty range for randrange", ?_⟩
  have hna : ¬ min_value ≤ max_value := by omega
  simp [generate_random_list, List.range_succ_eq_map, genAux, randint, hna]

/-- Witness for C6 at length 1, bounds 1 and 0. -/
theorem generate_random_list_invalid_range_witness :
    1 ≤ 1 ∧ (0 : Int) < 1 ∧
    (∃ e, generate_random_list 1 1 0 (fun _ => 0) = Except.error e) :=
  ⟨by decide, by decide,
    generate_random_list_invalid_range 1 1 0 (fun _ => 0) (by decide) (by decide)⟩

/-- C7: for every bounds pair, generate_random_list with length 0 returns
the empty sequence. -/
theorem generate_random_list_zero (min_value max_value : Int) (ds : Nat → Nat) :
    generate_random_list 0 min_value max_value ds = Except.ok [] := rfl

/-- C9: with length 0 the empty sequence is returned even for an invalid
bounds pair min_value > max_value: no draw happens, so the invalid-range
error is never raised. -/
theorem generate_random_list_zero_invalid (min_value max_value : Int)
    (ds : Nat → Nat) (_h : max_value < min_value) :
    generate_random_list 0 min_value max_value ds = Except.ok [] := rfl

/-- Witness for C9 at bounds 5 and 0. -/
theorem generate_random_list_zero_invalid_witness :
    (0 : Int) < 5 ∧ generate_random_list 0 5 0 (fun _ => 0) = Except.ok [] :=
  ⟨by decide, generate_random_list_zero_invalid 5 0 (fun _ => 0) (by decide)⟩

/-- C4: complex_function returns (a+b) + (c-d) + (e*f) for all numeric
inputs, and in particular equals 32 at (1, 2, 3, 4, 5, 6). -/
theorem complex_function_spec :
    (∀ a b c d e f : Rat,
      complex_function a b c d e f = (a + b) + (c - d) + (e * f)) ∧
    complex_function 1 2 3 4 5 6 = 32 := by
  refine ⟨fun a b c d e f => rfl, ?_⟩
  norm_num [complex_function]

/-- C10: calculate_average never raises: for every input list it returns a
value, because the division is guarded by the count == 0 early return. -/
theorem calculate_average_no_div_error (S : List PyNum) :
    ∃ v, calculate_average S = Except.ok v := by
  cases S with
  | nil => exact ⟨PyNum.int 0, rfl⟩
  | cons x xs => exact ⟨_, calculate_average_ok (x :: xs) (by simp)⟩

/-- C8: calculate_average is deterministic and has no side effects: run in
any two worlds it returns the same result, that result is the one the pure
function gives, and it leaves the world untouched. -/
theorem calculate_average_deterministic_pure (S : List PyNum) (w w2 : World) :
    (calculate_averageW S w).1 = (calculate_averageW S w2).1 ∧
    (calculate_averageW S w).1 = calculate_average S ∧
    (calculate_averageW S w).2 = w := by
  unfold calculate_averageW calculate_average
  by_cases h : S.length = 0 <;> simp [h]

/-- C5: when the random source makes generate_random_list 10 1 100 yield
[4, 77, 12, 99, 3, 50, 21, 8, 64, 33], the main program writes exactly the
two lines Numbers: [4, 77, 12, 99, 3, 50, 21, 8, 64, 33] and Average: 37.1,
and nothing else. -/
theorem main_program_output (ds : Nat → Nat)
    (h : generate_random_list 10 1 100 ds =
      Except.ok [4, 77, 12, 99, 3, 50, 21, 8, 64, 33]) :
    main_program ds = Except.ok
      ["Numbers: [4, 77, 12, 99, 3, 50, 21, 8, 64, 33]", "Average: 37.1"] := by
  have hq2 : (371 : Rat) / 10 = (⟨371, 10, by norm_num, by norm_num⟩ : Rat) := by
    refine Rat.ext ?_ ?_ <;> norm_num
  have hs : pyNumStr (PyNum.float ((371 : Rat) / 10)) = "37.1" := by
    show pyFloatStr ((371 : Rat) / 10) = "37.1"
    rw [hq2]
    rfl
  have hmain : main_program ds = Except.ok
      (print_results [4, 77, 12, 99, 3, 50, 21, 8, 64, 33]
        (PyNum.float ((371 : Rat) / 10)) []) := by
    unfold main_program
    rw [h]
    rfl
  rw [hmain]
  show Except.ok (printLine ("Average: " ++ pyNumStr (PyNum.float ((371 : Rat) / 10)))
    (printLine ("Numbers: " ++ pyIntListStr [4, 77, 12, 99, 3, 50, 21, 8, 64, 33]) [])) = _
  rw [hs]
  rfl

/-- Draw stream realizing the C5 scenario: randint 1 100 maps draw d to
1 + d mod 100, so draw v - 1 yields v. -/
def demoDraws : Nat → Nat :=
  fun i => List.getD [3, 76, 11, 98, 2, 49, 20, 7, 63, 32] i 0

/-- Witness for C5 on the concrete draw stream demoDraws. -/
theorem main_program_output_witness :
    generate_random_list 10 1 100 demoDraws =
      Except.ok [4, 77, 12, 99, 3, 50, 21, 8, 64, 33] ∧
    main_program demoDraws = Except.ok
      ["Numbers: [4, 77, 12, 99, 3, 50, 21, 8, 64, 33]", "Average: 37.1"] :=
  ⟨by rfl, main_program_output demoDraws (by rfl)⟩
